import Mathlib

/- Shallow embedding of the adguardhome-exporter (src/main.go).

The exporter polls one AdGuard Home statistics endpoint and maps a fixed
set of JSON fields into Prometheus samples.  We model:
  - the JSON payload shape and its decoding (json.Unmarshal on the
    Response struct, main.go lines 64-71 and 128-129),
  - the sample-emission step of CollectFromAPI (lines 131-153),
  - the Collect wrapper with its liveness gauge (lines 95-107),
  - the request construction of CollectFromAPI (lines 110-116),
  - the flag/environment configuration resolution in main (lines 161-187).
Metric values are modelled as rationals; Go float64 arithmetic never
happens here (values are copied verbatim from the decoded payload), so
this loses nothing the claims depend on. -/

set_option autoImplicit false

/-- The seven metric names registered by the exporter (main.go lines 27-61),
without the common adguardhome namespace prefix. -/
inductive MetricName
  | up
  | upstream_responses
  | dns_queries
  | blocked_dns_queries
  | processing_time
  | blocked_safe_browsing
  | blocked_safe_search
deriving DecidableEq, Repr

/-- One emitted sample: a metric name, an optional address label (present
exactly on upstream_responses samples), and a numeric value. -/
structure Sample where
  name : MetricName
  label : Option String
  value : ℚ
deriving DecidableEq, Repr

/-- The Response struct (main.go lines 64-71).  Go maps from address to
time are modelled as association lists; Go ints as Int, float64 as ℚ. -/
structure Response where
  UpstreamTime : List (List (String × ℚ))
  AllDNSQueries : Int
  BlockedDNSQueries : Int
  ProcessingTime : ℚ
  SafeBrowsing : Int
  SafeSearch : Int
deriving DecidableEq, Repr

/-- The zero value of the Response struct: what a var declaration gives in
Go before json.Unmarshal populates anything (main.go line 128). -/
def zeroResponse : Response :=
  { UpstreamTime := []
    AllDNSQueries := 0
    BlockedDNSQueries := 0
    ProcessingTime := 0
    SafeBrowsing := 0
    SafeSearch := 0 }

/-- The dynamic samples of the loop at main.go lines 131-137: for each
entry of res.UpstreamTime, one labeled upstream_responses sample per key
of the entry. -/
def upstreamSamples (res : Response) : List Sample :=
  res.UpstreamTime.flatMap
    (fun i => i.map (fun kv => Sample.mk MetricName.upstream_responses (some kv.1) kv.2))

/-- The five unconditional sends at main.go lines 139-153, values taken
from the Response fields (the Go code converts the int fields with
float64, an exact copy in this model). -/
def fixedSamples (res : Response) : List Sample :=
  [ Sample.mk MetricName.dns_queries none (res.AllDNSQueries : ℚ)
  , Sample.mk MetricName.blocked_dns_queries none (res.BlockedDNSQueries : ℚ)
  , Sample.mk MetricName.processing_time none res.ProcessingTime
  , Sample.mk MetricName.blocked_safe_browsing none (res.SafeBrowsing : ℚ)
  , Sample.mk MetricName.blocked_safe_search none (res.SafeSearch : ℚ) ]

/-- All data samples CollectFromAPI sends for a decoded Response, in
channel order: the upstream loop first, then the five fixed sends. -/
def samplesFromResponse (res : Response) : List Sample :=
  upstreamSamples res ++ fixedSamples res

/-- Outcome of the fetch-and-parse prefix of CollectFromAPI (main.go
lines 110-129), abstracting the network:
  - transportError: building the request, sending it, or reading the body
    failed (the three early returns at lines 111-113, 119-121, 124-126);
    nothing was sent on the channel yet.
  - parsedBody parseError res: a body was read and json.Unmarshal left
    res in the struct, returning an error iff parseError (for a
    syntactically invalid body the struct stays zeroResponse and
    parseError is true). -/
inductive FetchOutcome
  | transportError
  | parsedBody (parseError : Bool) (res : Response)
deriving DecidableEq, Repr

/-- CollectFromAPI (main.go lines 109-156): on a transport failure it
returns the error having sent nothing; otherwise it IGNORES the
json.Unmarshal error (assigned at line 129 but never checked), sends the
data samples, and returns nil. -/
def collectFromAPI : FetchOutcome → Except Unit (List Sample)
  | FetchOutcome.transportError => Except.error ()
  | FetchOutcome.parsedBody _ res => Except.ok (samplesFromResponse res)

/-- The liveness gauge sample (adguardhome_up). -/
def upSample (v : ℚ) : Sample := Sample.mk MetricName.up none v

/-- Collect (main.go lines 95-107), in channel order: if CollectFromAPI
returned an error, it sends up 0 and prints the error, and then, with no
return in the error branch, FALLS THROUGH to the unconditional send of
up 1 at lines 104-106.  On success it sends the data samples (from inside
CollectFromAPI) followed by up 1. -/
def collect (f : FetchOutcome) : List Sample :=
  match collectFromAPI f with
  | Except.error _ => [upSample 0, upSample 1]
  | Except.ok s => s ++ [upSample 1]

/-- Recognizes the dynamic upstream_responses samples. -/
def isUpstreamSample (s : Sample) : Bool :=
  decide (s.name = MetricName.upstream_responses)

/-- Recognizes the liveness samples. -/
def isUpSample (s : Sample) : Bool :=
  decide (s.name = MetricName.up)

/- Configuration resolution (main.go lines 161-187).  Each of the five
keys resolves independently: the flag variable starts at its default, the
environment value overwrites it when os.Getenv returns a nonempty string
(lines 181-185), and flag.Parse afterwards overwrites it again with any
flag passed explicitly on the command line (line 187). -/

/-- os.Getenv: the empty string both for an unset variable and for one
set to the empty string. -/
def getenv : Option String → String
  | some v => v
  | none => ""

/-- Resolution of one configuration key: default, then nonempty
environment override, then explicit command-line flag (which wins because
flag.Parse runs after the environment loop). -/
def resolveKey (dflt : String) (env : Option String) (flagArg : Option String) : String :=
  let afterEnv := if getenv env ≠ "" then getenv env else dflt
  match flagArg with
  | some a => a
  | none => afterEnv

/- Request construction (main.go lines 110-116). -/

/-- The standard base64 alphabet used by base64.StdEncoding. -/
def base64Alphabet : List Char :=
  "ABCDEFGHIJKLMNOPQRSTUVWXYZabcdefghijklmnopqrstuvwxyz0123456789+/".toList

/-- The base64 digit for a sextet (n < 64). -/
def base64Char (n : Nat) : Char := base64Alphabet.getD n '='

/-- base64.StdEncoding.EncodeToString on a byte list: groups of three
bytes become four digits, a trailing group of one or two bytes is padded
with =. -/
def base64Encode : List Nat → List Char
  | [] => []
  | [a] =>
      [base64Char (a % 256 / 4), base64Char (a % 256 % 4 * 16), '=', '=']
  | [a, b] =>
      [ base64Char (a % 256 / 4)
      , base64Char (a % 256 % 4 * 16 + b % 256 / 16)
      , base64Char (b % 256 % 16 * 4), '=' ]
  | a :: b :: c :: rest =>
      base64Char (a % 256 / 4) ::
      base64Char (a % 256 % 4 * 16 + b % 256 / 16) ::
      base64Char (b % 256 % 16 * 4 + c % 256 / 64) ::
      base64Char (c % 256 % 64) ::
      base64Encode rest

/-- The UTF-8 bytes of a string, as Go sees a string cast to a byte
slice. -/
def strBytes (s : String) : List Nat :=
  s.toUTF8.toList.map (fun b => b.toNat)

/-- The Exporter struct (main.go lines 73-75). -/
structure Exporter where
  Endpoint : String
  Username : String
  Password : String
deriving DecidableEq, Repr

/-- The observable parts of the single HTTP request CollectFromAPI
issues. -/
structure Request where
  method : String
  url : String
  authorization : String
deriving DecidableEq, Repr

/-- The request built at main.go lines 110-116: GET on
http://{endpoint}/control/stats with the basic-auth header computed by
base64-encoding username:password. -/
def buildRequest (e : Exporter) : Request :=
  let url := "http://" ++ e.Endpoint ++ "/control/stats"
  let credential := base64Encode (strBytes (e.Username ++ ":" ++ e.Password))
  { method := "GET"
    url := url
    authorization := "Basic " ++ String.mk credential }

/- JSON decoding (json.Unmarshal into the Response struct, main.go lines
64-71 and 128-129).  JSON values are modelled structurally; numbers as
rationals. -/

/-- A JSON value. -/
inductive Json
  | null
  | bool (b : Bool)
  | num (q : ℚ)
  | str (s : String)
  | arr (elems : List Json)
  | obj (fields : List (String × Json))

/-- Unmarshalling an optional object member into a Go int field: a
missing member or a JSON null leaves the zero value; an integral number
is copied; anything else is a type error. -/
def decodeInt : Option Json → Except String Int
  | none => Except.ok 0
  | some Json.null => Except.ok 0
  | some (Json.num q) =>
      if q.den = 1 then Except.ok q.num
      else Except.error "cannot unmarshal number into field of type int"
  | some _ => Except.error "cannot unmarshal value into field of type int"

/-- Unmarshalling an optional object member into a Go float64 field. -/
def decodeFloat : Option Json → Except String ℚ
  | none => Except.ok 0
  | some Json.null => Except.ok 0
  | some (Json.num q) => Except.ok q
  | some _ => Except.error "cannot unmarshal value into field of type float64"

/-- Unmarshalling one element of top_upstreams_avg_time into a Go
map from string to float64 (a JSON null gives a nil map). -/
def decodeTimeEntry : Json → Except String (List (String × ℚ))
  | Json.null => Except.ok []
  | Json.obj fs =>
      fs.mapM (fun kv =>
        match kv.2 with
        | Json.null => Except.ok (kv.1, (0 : ℚ))
        | Json.num q => Except.ok (kv.1, q)
        | _ => Except.error "cannot unmarshal value into field of type float64")
  | _ => Except.error "cannot unmarshal value into field of type map"

/-- Unmarshalling the optional top_upstreams_avg_time member into the
slice field: missing or null gives the nil slice. -/
def decodeUpstreamTime : Option Json → Except String (List (List (String × ℚ)))
  | none => Except.ok []
  | some Json.null => Except.ok []
  | some (Json.arr xs) => xs.mapM decodeTimeEntry
  | some _ => Except.error "cannot unmarshal value into field of type slice"

/-- json.Unmarshal of a JSON document into the Response struct: the
document must be an object (or null, a no-op); each tagged field is
looked up by its JSON name and object members with other names are
ignored. -/
def decodeResponse : Json → Except String Response
  | Json.null => Except.ok zeroResponse
  | Json.obj fs => do
      let ut ← decodeUpstreamTime (fs.lookup "top_upstreams_avg_time")
      let dq ← decodeInt (fs.lookup "num_dns_queries")
      let bq ← decodeInt (fs.lookup "num_blocked_filtering")
      let pt ← decodeFloat (fs.lookup "avg_processing_time")
      let sb ← decodeInt (fs.lookup "num_replaced_safebrowsing")
      let ss ← decodeInt (fs.lookup "num_replaced_safesearch")
      Except.ok (Response.mk ut dq bq pt sb ss)
  | _ => Except.error "cannot unmarshal value into Response"

/-- The concrete statistics payload of the spec, section 8: ten queries,
two blocked, half a second average processing time, one Safe Browsing
block, zero Safe Search blocks, one upstream entry for 1.1.1.1 at 0.02
seconds. -/
def exampleResponse : Response :=
  { UpstreamTime := [[("1.1.1.1", 1/50)]]
    AllDNSQueries := 10
    BlockedDNSQueries := 2
    ProcessingTime := 1/2
    SafeBrowsing := 1
    SafeSearch := 0 }

/- Helper lemmas. -/

theorem bind_ok_left {α β : Type} (a : α) (f : α → Except String β) :
    (Except.ok a >>= f) = f a := rfl

theorem filter_isUpstreamSample_fixedSamples (res : Response) :
    (fixedSamples res).filter isUpstreamSample = [] := rfl

theorem filter_not_isUpstreamSample_fixedSamples (res : Response) :
    (fixedSamples res).filter (fun s => !isUpstreamSample s) = fixedSamples res := rfl

theorem filter_isUpstreamSample_upstreamSamples (res : Response) :
    (upstreamSamples res).filter isUpstreamSample = upstreamSamples res := by
  rw [List.filter_eq_self]
  intro s hs
  simp only [upstreamSamples, List.mem_flatMap, List.mem_map] at hs
  obtain ⟨i, _, kv, _, rfl⟩ := hs
  rfl

theorem filter_not_isUpstreamSample_upstreamSamples (res : Response) :
    (upstreamSamples res).filter (fun s => !isUpstreamSample s) = [] := by
  rw [List.filter_eq_nil_iff]
  intro s hs
  simp only [upstreamSamples, List.mem_flatMap, List.mem_map] at hs
  obtain ⟨i, _, kv, _, rfl⟩ := hs
  simp [isUpstreamSample]

theorem upstreamSamples_length (res : Response) :
    (upstreamSamples res).length = (res.UpstreamTime.map List.length).sum := by
  simp only [upstreamSamples, List.length_flatMap]
  exact congrArg List.sum (List.map_congr_left (fun a _ => by simp))

theorem decodeResponse_obj_ok (fs : List (String × Json)) (r : Response) :
    decodeResponse (Json.obj fs) = Except.ok r ↔
      ∃ ut dq bq pt sb ss,
        decodeUpstreamTime (fs.lookup "top_upstreams_avg_time") = Except.ok ut ∧
        decodeInt (fs.lookup "num_dns_queries") = Except.ok dq ∧
        decodeInt (fs.lookup "num_blocked_filtering") = Except.ok bq ∧
        decodeFloat (fs.lookup "avg_processing_time") = Except.ok pt ∧
        decodeInt (fs.lookup "num_replaced_safebrowsing") = Except.ok sb ∧
        decodeInt (fs.lookup "num_replaced_safesearch") = Except.ok ss ∧
        Response.mk ut dq bq pt sb ss = r := by
  cases hu : decodeUpstreamTime (fs.lookup "top_upstreams_avg_time") <;>
  cases hd : decodeInt (fs.lookup "num_dns_queries") <;>
  cases hb : decodeInt (fs.lookup "num_blocked_filtering") <;>
  cases hp : decodeFloat (fs.lookup "avg_processing_time") <;>
  cases hs : decodeInt (fs.lookup "num_replaced_safebrowsing") <;>
  cases ht : decodeInt (fs.lookup "num_replaced_safesearch") <;>
  simp [decodeResponse, hu, hd, hb, hp, hs, ht, Bind.bind, Except.bind]

/- Claim theorems. -/

/-- Claim C1 fails on the code: on a transport failure the collector
sends the liveness gauge with value 0 and then, because the error branch
of Collect (main.go lines 97-102) does not return, also sends the
unconditional liveness gauge with value 1 (lines 104-106).  The scrape
therefore carries two adguardhome_up samples, not exactly one sample with
value 0 as the claim states. -/
theorem C1_transport_error_emits_up0_then_up1 :
    collect FetchOutcome.transportError = [upSample 0, upSample 1] := rfl

/-- Claim C2 fails on the code at the same failing input: on a failed
collection cycle the liveness gauge is produced twice (0 then 1), not
exactly once. -/
theorem C2_liveness_emitted_twice_on_failure :
    ((collect FetchOutcome.transportError).filter isUpSample).length = 2 := rfl

/-- Claim C3 fails on the code: when the body is not valid JSON,
json.Unmarshal leaves the Response at its zero value and its error is
never checked (main.go line 129), so CollectFromAPI still sends the five
fixed samples with value 0 and returns nil, and Collect then sends the
liveness gauge with value 1 - not the single adguardhome_up 0 sample the
claim states. -/
theorem C3_invalid_json_emits_up1_and_zero_valued_samples :
    collect (FetchOutcome.parsedBody true zeroResponse) =
      [ Sample.mk MetricName.dns_queries none 0
      , Sample.mk MetricName.blocked_dns_queries none 0
      , Sample.mk MetricName.processing_time none 0
      , Sample.mk MetricName.blocked_safe_browsing none 0
      , Sample.mk MetricName.blocked_safe_search none 0
      , upSample 1 ] := by decide

/-- Claim C4: on a well-formed Response (every upstreamAverageTimes entry
a single-entry mapping) the mapping step emits exactly one labeled
upstream_responses sample per entry, each entry contributing the sample
with its address as label and its recorded time as value, and besides
them exactly the five fixed-name samples with the Response field values
copied verbatim. -/
theorem C4_mapper_output (res : Response)
    (h : ∀ e ∈ res.UpstreamTime, e.length = 1) :
    ((samplesFromResponse res).filter isUpstreamSample).length = res.UpstreamTime.length ∧
    (∀ e ∈ res.UpstreamTime, ∀ kv ∈ e,
        Sample.mk MetricName.upstream_responses (some kv.1) kv.2 ∈ samplesFromResponse res) ∧
    (samplesFromResponse res).filter (fun s => !isUpstreamSample s) = fixedSamples res := by
  refine ⟨?_, ?_, ?_⟩
  · rw [samplesFromResponse, List.filter_append, filter_isUpstreamSample_upstreamSamples,
      filter_isUpstreamSample_fixedSamples, List.append_nil, upstreamSamples_length,
      List.map_congr_left h]
    simp
  · intro e he kv hkv
    apply List.mem_append_left
    simp only [upstreamSamples, List.mem_flatMap, List.mem_map]
    exact ⟨e, he, kv, hkv, rfl⟩
  · rw [samplesFromResponse, List.filter_append, filter_not_isUpstreamSample_upstreamSamples,
      filter_not_isUpstreamSample_fixedSamples, List.nil_append]

/-- C4 witness at the concrete payload of the spec, section 8. -/
theorem C4_mapper_output_witness :
    ((samplesFromResponse exampleResponse).filter isUpstreamSample).length
      = exampleResponse.UpstreamTime.length :=
  (C4_mapper_output exampleResponse (by decide)).1

/-- Claim C5 fails on the code at a concrete input: because the
environment loop runs before flag.Parse (main.go lines 181-187), an
explicitly passed command-line flag overwrites the environment value, so
with the environment variable set and the flag passed the resolved value
is the flag value, not the environment value the claim requires. -/
theorem C5_counterexample_flag_beats_env :
    resolveKey "" (some "env.example:80") (some "flag.example:80") = "flag.example:80" ∧
    "flag.example:80" ≠ "env.example:80" := ⟨rfl, by decide⟩

/-- Claim C5 (amended): for every configuration key, a nonempty
environment value overrides the flag default when the flag is not passed
explicitly; an explicitly passed flag overrides both the default and the
environment (flag.Parse runs after the environment loop); with the
environment variable unset the value is the explicit flag value, or else
the default. -/
theorem C5_amended_resolution (dflt envVal flagVal : String) (h : envVal ≠ "") :
    resolveKey dflt (some envVal) none = envVal ∧
    resolveKey dflt (some envVal) (some flagVal) = flagVal ∧
    resolveKey dflt none (some flagVal) = flagVal ∧
    resolveKey dflt none none = dflt := by
  refine ⟨?_, rfl, rfl, ?_⟩
  · simp [resolveKey, getenv, h]
  · simp [resolveKey, getenv]

/-- C5 witness at the address key with its real default. -/
theorem C5_amended_resolution_witness :
    resolveKey ":8000" (some "env.example:80") none = "env.example:80" ∧
    resolveKey ":8000" (some "env.example:80") (some "flag.example:80") = "flag.example:80" ∧
    resolveKey ":8000" none (some "flag.example:80") = "flag.example:80" ∧
    resolveKey ":8000" none none = ":8000" :=
  C5_amended_resolution ":8000" "env.example:80" "flag.example:80" (by decide)

/-- Claim C6: a Response whose upstream list is empty yields zero
upstream_responses samples, CollectFromAPI still succeeds, and the data
samples are exactly the five fixed-name samples. -/
theorem C6_empty_upstreams_no_samples_no_failure (res : Response)
    (h : res.UpstreamTime = []) :
    collectFromAPI (FetchOutcome.parsedBody false res) = Except.ok (samplesFromResponse res) ∧
    ((samplesFromResponse res).filter isUpstreamSample).length = 0 ∧
    samplesFromResponse res = fixedSamples res := by
  refine ⟨rfl, ?_, ?_⟩ <;>
  simp [samplesFromResponse, upstreamSamples, h, filter_isUpstreamSample_fixedSamples]

/-- C6 witness at the zero Response. -/
theorem C6_empty_upstreams_witness :
    collectFromAPI (FetchOutcome.parsedBody false zeroResponse)
        = Except.ok (samplesFromResponse zeroResponse) ∧
    ((samplesFromResponse zeroResponse).filter isUpstreamSample).length = 0 ∧
    samplesFromResponse zeroResponse = fixedSamples zeroResponse :=
  C6_empty_upstreams_no_samples_no_failure zeroResponse rfl

/-- Claim C7: for every exporter configuration, the request CollectFromAPI
builds is a GET on http://{endpoint}/control/stats whose Authorization
header is Basic followed by the standard base64 encoding of the bytes of
username and password joined by a single colon. -/
theorem C7_request_url_and_basic_auth (e : Exporter) :
    buildRequest e =
      { method := "GET"
        url := "http://" ++ e.Endpoint ++ "/control/stats"
        authorization :=
          "Basic " ++ String.mk (base64Encode (strBytes (e.Username ++ ":" ++ e.Password))) } :=
  rfl

/-- Claim C8: for a JSON object body, if all six expected members are
absent decoding succeeds with the zero Response, and whenever decoding
succeeds each absent member leaves its field at the zero value (empty
list for the upstream slice, 0 for the counters and the processing
time). -/
theorem C8_absent_fields_decode_to_zero (fs : List (String × Json)) :
    ((fs.lookup "top_upstreams_avg_time" = none ∧ fs.lookup "num_dns_queries" = none ∧
      fs.lookup "num_blocked_filtering" = none ∧ fs.lookup "avg_processing_time" = none ∧
      fs.lookup "num_replaced_safebrowsing" = none ∧ fs.lookup "num_replaced_safesearch" = none) →
      decodeResponse (Json.obj fs) = Except.ok zeroResponse) ∧
    (∀ r : Response, decodeResponse (Json.obj fs) = Except.ok r →
      (fs.lookup "top_upstreams_avg_time" = none → r.UpstreamTime = []) ∧
      (fs.lookup "num_dns_queries" = none → r.AllDNSQueries = 0) ∧
      (fs.lookup "num_blocked_filtering" = none → r.BlockedDNSQueries = 0) ∧
      (fs.lookup "avg_processing_time" = none → r.ProcessingTime = 0) ∧
      (fs.lookup "num_replaced_safebrowsing" = none → r.SafeBrowsing = 0) ∧
      (fs.lookup "num_replaced_safesearch" = none → r.SafeSearch = 0)) := by
  constructor
  · rintro ⟨h1, h2, h3, h4, h5, h6⟩
    simp [decodeResponse, h1, h2, h3, h4, h5, h6, decodeUpstreamTime, decodeInt, decodeFloat,
      bind_ok_left, zeroResponse]
  · intro r hr
    rw [decodeResponse_obj_ok] at hr
    obtain ⟨ut, dq, bq, pt, sb, ss, hu, hd, hb, hp, hsb, hss, hmk⟩ := hr
    subst hmk
    refine ⟨?_, ?_, ?_, ?_, ?_, ?_⟩ <;> intro hn
    · rw [hn] at hu; simpa [decodeUpstreamTime] using hu.symm
    · rw [hn] at hd; simpa [decodeInt] using hd.symm
    · rw [hn] at hb; simpa [decodeInt] using hb.symm
    · rw [hn] at hp; simpa [decodeFloat] using hp.symm
    · rw [hn] at hsb; simpa [decodeInt] using hsb.symm
    · rw [hn] at hss; simpa [decodeInt] using hss.symm

/-- C8 witness: an object carrying only an unrelated member decodes to the
zero Response. -/
theorem C8_absent_fields_witness :
    decodeResponse (Json.obj [("unrelated", Json.str "x")]) = Except.ok zeroResponse :=
  (C8_absent_fields_decode_to_zero [("unrelated", Json.str "x")]).1
    ⟨rfl, rfl, rfl, rfl, rfl, rfl⟩

/-- Claim C9: an environment variable set to the empty string resolves
every configuration key exactly as an unset one does, whatever the
default and whatever flag is or is not passed. -/
theorem C9_empty_env_same_as_unset (dflt : String) (flagArg : Option String) :
    resolveKey dflt (some "") flagArg = resolveKey dflt none flagArg := by
  cases flagArg <;> rfl

/-- Claim C10: the number of upstream_responses samples a cycle emits is
the total number of keys over all entries of the upstream list - one
sample per key of each entry, not one per entry. -/
theorem C10_one_sample_per_key (res : Response) :
    ((samplesFromResponse res).filter isUpstreamSample).length
      = (res.UpstreamTime.map List.length).sum := by
  rw [samplesFromResponse, List.filter_append, filter_isUpstreamSample_upstreamSamples,
    filter_isUpstreamSample_fixedSamples, List.append_nil, upstreamSamples_length]
